import Mathlib

/-
Shallow embedding of the EMI payment predictor core
(`data_processor.py` and `predictor.py`) together with theorems
checking the natural-language specification against it.

Calendar dates are modelled as year/month/day records; pandas
Timestamp subtraction and `timedelta(days=k)` addition are modelled
through the rata-die (days since 1970-01-01) value `toRd`.
Missing values (pandas `NaN`/`NaT`) are modelled as `Option`.
-/

namespace EMI

/-- A calendar date, as carried by a pandas Timestamp. -/
structure Date where
  year : Int
  month : Nat
  day : Nat
deriving DecidableEq, Repr

/-- Gregorian leap-year rule, as used by `calendar.monthrange`. -/
def isLeap (y : Int) : Bool :=
  (y % 4 == 0 && y % 100 != 0) || (y % 400 == 0)

/-- Number of days in a month, `calendar.monthrange(y, m)[1]`. -/
def daysInMonth (y : Int) (m : Nat) : Nat :=
  if m = 2 then (if isLeap y then 29 else 28)
  else if m = 4 ∨ m = 6 ∨ m = 9 ∨ m = 11 then 30
  else 31

/-- Days since 1970-01-01 of a calendar date (civil-from-days inverse),
modelling the linear time underlying pandas Timestamps. -/
def toRd (dt : Date) : Int :=
  let y : Int := if dt.month ≤ 2 then dt.year - 1 else dt.year
  let era : Int := Int.fdiv y 400
  let yoe : Int := y - era * 400
  let mp : Int := ((dt.month : Int) + 9) % 12
  let doy : Int := Int.fdiv (153 * mp + 2) 5 + ((dt.day : Int) - 1)
  let doe : Int := yoe * 365 + Int.fdiv yoe 4 - Int.fdiv yoe 100 + doy
  era * 146097 + doe - 719468

/-- Floor of a rational, computed on its reduced fraction. -/
def ratFloor (q : ℚ) : ℤ :=
  Int.fdiv q.num (q.den : ℤ)

/-- Python `int(round(x))` on a real value: round half to even.
With `f = ⌊q⌋` the fractional part is `(q.num - f * q.den) / q.den`,
so it is compared with `1/2` by comparing `2 * (q.num - f * q.den)`
with `q.den`. -/
def pyRound (q : ℚ) : ℤ :=
  let f : ℤ := ratFloor q
  let r2 : ℤ := 2 * (q.num - f * (q.den : ℤ))
  if r2 < (q.den : ℤ) then f
  else if (q.den : ℤ) < r2 then f + 1
  else if f % 2 = 0 then f else f + 1

/-- Mean of a list of rationals; `none` models the NaN that pandas
returns for an empty (or all-NaN, after skipping) column. -/
def meanQ (l : List ℚ) : Option ℚ :=
  if l.length = 0 then none else some (l.sum / (l.length : ℚ))

/-- Mean of integer day counts, as the exact fraction sum/length. -/
def meanZ (l : List ℤ) : Option ℚ :=
  if l.length = 0 then none else some (mkRat l.sum l.length)

/-- Sample variance of integer day counts with `ddof = 1` (the square
of the pandas `std`); `none` models the NaN produced for fewer than
two values.  The textbook value `(Σ (x - s/n)^2) / (n - 1)` is computed
as the single exact fraction `(Σ (n*x - s)^2) / (n^2 * (n - 1))`. -/
def varZ (l : List ℤ) : Option ℚ :=
  if l.length < 2 then none
  else
    let n : ℤ := (l.length : ℤ)
    let s : ℤ := l.sum
    some (mkRat ((l.map (fun x => (n * x - s) * (n * x - s))).sum)
      (l.length ^ 2 * (l.length - 1)))

/-- Maximum of a list, `none` on empty (pandas `max` with skipna). -/
def maxO : List ℤ → Option ℤ
  | [] => none
  | x :: xs =>
    match maxO xs with
    | none => some x
    | some m => some (max x m)

/-- Minimum of a list, `none` on empty (pandas `min` with skipna). -/
def minO : List ℤ → Option ℤ
  | [] => none
  | x :: xs =>
    match minO xs with
    | none => some x
    | some m => some (min x m)

/-- Multiplicity of `x` in `l`. -/
def cnt (l : List ℕ) (x : ℕ) : ℕ :=
  (l.filter (fun y => y == x)).length

/-- Smallest value of maximal multiplicity: pandas `mode()[0]`
(the mode Series is sorted ascending, so index 0 is the least mode);
`0` on the empty list, matching the `if len(...) > 0 else 0` guard. -/
def modeMin (l : List ℕ) : ℕ :=
  match l with
  | [] => 0
  | x :: _ =>
    l.foldl (fun best y =>
      if cnt l y > cnt l best ∨ (cnt l y = cnt l best ∧ y < best) then y else best) x

/-- Successive differences of a list of possibly-missing integers,
as pandas `Series.diff()` without its leading NaN (which every
skipna aggregation ignores anyway). -/
def optDiffs : List (Option ℤ) → List (Option ℤ)
  | a :: b :: rest =>
    (match a, b with
     | some x, some y => some (y - x)
     | _, _ => none) :: optDiffs (b :: rest)
  | _ => []

/-- Successive differences of an all-present list (payment dates). -/
def diffs : List ℤ → List ℤ
  | a :: b :: rest => (b - a) :: diffs (b :: rest)
  | _ => []

/-! ## Data model (`data_processor.py`) -/

/-- One input row of the payment-history file.  `scheduled_date` and
`amount` are `Option` because individual cells may be missing even
when the column is present. -/
structure RawRow where
  customer_id : String
  payment_date : Date
  scheduled_date : Option Date
  amount : Option ℚ
deriving DecidableEq, Repr

/-- A loaded pandas DataFrame: the rows plus which optional columns
the file has (`'scheduled_date' in df.columns`, `'amount' in df.columns`
are column-level, not per-row, tests in the source). -/
structure DataFrame where
  hasScheduledCol : Bool
  hasAmountCol : Bool
  rows : List RawRow
deriving DecidableEq, Repr

/-- Stable insertion of a row into a list sorted by payment date:
a row moves before the first strictly later row, so rows with equal
dates keep their original relative order (pandas `sort_values` is
stable in effect for the properties used here). -/
def insertByDate (r : RawRow) : List RawRow → List RawRow
  | [] => [r]
  | x :: xs =>
    if toRd r.payment_date < toRd x.payment_date then r :: x :: xs
    else x :: insertByDate r xs

/-- Sort rows ascending by payment date. -/
def sortByDate (l : List RawRow) : List RawRow :=
  l.foldl (fun acc r => insertByDate r acc) []

/-- `EMIDataProcessor.load_data`: parse dates and sort by
`payment_date` ascending (CSV parsing itself is outside the model). -/
def load_data (d : DataFrame) : DataFrame :=
  { d with rows := sortByDate d.rows }

/-- A row after `calculate_payment_delays`: the same data plus the
derived `delay_days` column (`none` = NaN). -/
structure Row where
  customer_id : String
  payment_date : Date
  scheduled_date : Option Date
  amount : Option ℚ
  delay_days : Option ℤ
deriving DecidableEq, Repr

/-- A processed frame: rows with `delay_days`, plus the column flags. -/
structure PFrame where
  hasScheduledCol : Bool
  hasAmountCol : Bool
  rows : List Row
deriving DecidableEq, Repr

/-- The `else` branch of `calculate_payment_delays`:
`df['payment_date'].diff().dt.days` over the whole frame followed by
`fillna(0)`.  `diff` of a datetime column is NaN only at the first row,
which `fillna(0)` turns into 0; every later row gets the gap to the
immediately preceding row of the frame, whatever its customer. -/
def diffDelayRows : List RawRow → Option ℤ → List Row
  | [], _ => []
  | r :: rs, prev =>
    let dd : ℤ :=
      match prev with
      | none => 0
      | some q => toRd r.payment_date - q
    ⟨r.customer_id, r.payment_date, r.scheduled_date, r.amount, some dd⟩ ::
      diffDelayRows rs (some (toRd r.payment_date))

/-- `EMIDataProcessor.calculate_payment_delays`: if the frame has a
`scheduled_date` column, `delay_days = payment_date - scheduled_date`
per row (NaN where the cell is missing); otherwise the successive
difference of payment dates with the first row filled with 0. -/
def calculate_payment_delays (d : DataFrame) : PFrame :=
  if d.hasScheduledCol then
    { hasScheduledCol := d.hasScheduledCol
      hasAmountCol := d.hasAmountCol
      rows := d.rows.map (fun r =>
        ⟨r.customer_id, r.payment_date, r.scheduled_date, r.amount,
         r.scheduled_date.map (fun s => toRd r.payment_date - toRd s)⟩) }
  else
    { hasScheduledCol := d.hasScheduledCol
      hasAmountCol := d.hasAmountCol
      rows := diffDelayRows d.rows none }

/-! ## Feature engineering (`data_processor.py`) -/

/-- `config.FEATURE_WINDOWS` / `self.feature_windows`. -/
def FEATURE_WINDOWS : List ℕ := [7, 14, 30, 60, 90]

/-- One rolling-window feature pair:
`delay_mean_{w}d` and `payment_count_{w}d`. -/
structure WFeat where
  mean : Option ℚ
  count : ℕ
deriving DecidableEq, Repr

/-- The body of the rolling-statistics loop: given the trailing-window
slice `window_df`, produce its mean delay and count if it is nonempty,
and `0` for both otherwise. -/
def windowFeat (window_df : List Row) : WFeat :=
  if window_df.length > 0 then
    { mean := meanZ (window_df.filterMap (fun r => r.delay_days))
      count := window_df.length }
  else
    { mean := some (0 : ℚ), count := 0 }

/-- The engineered feature row built by `engineer_features`.
`var_delay` and `interval_var` carry the squares of the pandas
`std_delay` and `interval_std` (the standard deviations themselves are
irrational; only their comparisons against constants are ever
consumed, which the squares determine). `last_payment_rd` is the
`last_payment_date` bookkeeping column as a day number. -/
structure Feature where
  total_payments : ℕ
  avg_delay : Option ℚ
  var_delay : Option ℚ
  max_delay : Option ℤ
  min_delay : Option ℤ
  recent_avg_delay : Option ℚ
  recent_trend : Option ℚ
  avg_interval : Option ℚ
  interval_var : Option ℚ
  preferred_day : ℕ
  preferred_month : ℕ
  windows : List (ℕ × WFeat)
  last_payment_rd : ℤ
  last_delay : Option ℤ
  days_since_last_payment : ℤ
  avg_amount : Option ℚ
  last_amount : Option ℚ
deriving DecidableEq, Repr

/-- `EMIDataProcessor.engineer_features` for one customer.  `now` is
the day number of `datetime.now()`, which feeds only
`days_since_last_payment`.  Returns `none` when the customer has fewer
than 2 records. -/
def engineer_features (d : PFrame) (customer_id : String) (now : ℤ) : Option Feature :=
  let customer_df := d.rows.filter (fun r => r.customer_id == customer_id)
  if customer_df.length < 2 then none
  else
    match customer_df.getLast? with
    | none => none
    | some last_payment =>
      let delaysAll := customer_df.map (fun r => r.delay_days)
      let delaysV := delaysAll.filterMap id
      let pdates := customer_df.map (fun r => toRd r.payment_date)
      let recent := delaysAll.drop (delaysAll.length - 3)
      let intervals := diffs pdates
      some
        { total_payments := customer_df.length
          avg_delay := meanZ delaysV
          var_delay := varZ delaysV
          max_delay := maxO delaysV
          min_delay := minO delaysV
          recent_avg_delay := meanZ (recent.filterMap id)
          recent_trend := meanZ ((optDiffs recent).filterMap id)
          avg_interval := meanZ intervals
          interval_var := varZ intervals
          preferred_day := modeMin (pdates.map (fun rd => ((rd + 3) % 7).toNat))
          preferred_month := modeMin (customer_df.map (fun r => r.payment_date.month))
          windows := FEATURE_WINDOWS.map (fun w =>
            let maxD := (maxO pdates).getD 0
            (w, windowFeat (customer_df.filter
              (fun r => maxD - (w : ℤ) ≤ toRd r.payment_date))))
          last_payment_rd := toRd last_payment.payment_date
          last_delay := last_payment.delay_days
          days_since_last_payment := now - toRd last_payment.payment_date
          avg_amount :=
            if d.hasAmountCol then meanQ (customer_df.filterMap (fun r => r.amount))
            else none
          last_amount := if d.hasAmountCol then last_payment.amount else none }

/-- Day number of the row at position `i` of a row list
(`customer_df.iloc[i]['payment_date']`); positions are always in
range where this is used. -/
def nthRd (l : List Row) (i : ℕ) : ℤ :=
  match l.get? i with
  | none => 0
  | some r => toRd r.payment_date

/-- The customer identifiers of a frame in order of first appearance
(`df['customer_id'].unique()`). -/
def uniqueIds (l : List Row) : List String :=
  l.foldl (fun acc r =>
    if acc.contains r.customer_id then acc else acc ++ [r.customer_id]) []

/-- `EMIDataProcessor.prepare_training_data`: for every customer with
at least 3 records, one training example per loop index
`i ∈ range(2, n)`: features over the first `i` rows
(`customer_df.iloc[:i]`) paired with the target
`customer_df.iloc[i+1].payment_date - customer_df.iloc[i].payment_date`
for `i < n - 1` and
`customer_df.iloc[i].payment_date - historical.iloc[-1].payment_date`
(with `historical.iloc[-1]` = row `i - 1`) for the last index.
Returns `none` (the source's `None, None`) when no example was built.
The source then drops the non-numeric `last_payment_date` column;
here the bookkeeping field simply stays in the `Feature` record. -/
def prepare_training_data (d : PFrame) (now : ℤ) : Option (List (Feature × ℤ)) :=
  let pairs := (uniqueIds d.rows).flatMap (fun cid =>
    let customer_df := d.rows.filter (fun r => r.customer_id == cid)
    if customer_df.length < 3 then []
    else
      (List.range' 2 (customer_df.length - 2)).filterMap (fun i =>
        match engineer_features { d with rows := customer_df.take i } cid now with
        | none => none
        | some f =>
          let target : ℤ :=
            if i < customer_df.length - 1 then nthRd customer_df (i + 1) - nthRd customer_df i
            else nthRd customer_df i - nthRd customer_df (i - 1)
          some (f, target)))
  if pairs.length = 0 then none else some pairs

/-- Decidable equality for `Except`, so that concrete outcomes can be
checked by `decide`. -/
instance {ε α : Type} [DecidableEq ε] [DecidableEq α] : DecidableEq (Except ε α) := fun x y =>
  match x, y with
  | .ok a, .ok b => if h : a = b then isTrue (by rw [h]) else isFalse (by simp [h])
  | .error a, .error b => if h : a = b then isTrue (by rw [h]) else isFalse (by simp [h])
  | .ok _, .error _ => isFalse (by simp)
  | .error _, .ok _ => isFalse (by simp)

/-! ## Prediction engine (`predictor.py`) -/

/-- `config.MIN_HISTORY_RECORDS`. -/
def MIN_HISTORY_RECORDS : ℕ := 3

/-- `config.MODEL_PATH`. -/
def MODEL_PATH : String := "models/emi_predictor_model.pkl"

/-- The regressor object held in `self.model`: `xgb.XGBRegressor(...)`
before `fit` has run, or a fitted regressor afterwards.  A fitted
regressor is abstracted as an opaque function from the engineered
feature row (reindexed to the stored schema, missing columns filled
with 0) to its predicted number of days. -/
inductive Reg
  | unfitted
  | fitted (f : Feature → ℚ)

/-- The mutable state of an `EMIPaymentPredictor` instance:
`self.model` and `self.feature_names`. -/
structure Engine where
  model : Option Reg
  feature_names : Option (List String)

/-- The environment of `load_model`: which artifact (regressor plus
feature-name list) exists at which path, and the directories used by
the path-resolution fallbacks (`script_dir` and its parent). -/
structure World where
  disk : String → Option (Reg × List String)
  scriptDir : String
  parentDir : String

/-- `os.path.isabs`. -/
def isAbs (p : String) : Bool := p.startsWith "/"

/-- `os.path.join`. -/
def joinPath (a b : String) : String := a ++ "/" ++ b

/-- The path-resolution chain of `load_model`: the path as given
(relative paths are current-directory relative), then relative to the
script directory, then relative to its parent; returns the artifact
found at the resolved path, if any. -/
def resolveModel (w : World) (p0 : String) : Option (Reg × List String) :=
  let p :=
    if isAbs p0 then p0
    else if (w.disk p0).isSome then p0
    else if (w.disk (joinPath w.scriptDir p0)).isSome then joinPath w.scriptDir p0
    else if (w.disk (joinPath w.parentDir p0)).isSome then joinPath w.parentDir p0
    else p0
  w.disk p

/-- The errors `predict_next_payment_date` can raise:
`FileNotFoundError` from the lazy `load_model`, the two `ValueError`s
of the history/feature checks, `sklearn`'s not-fitted error if the
regressor was never fitted, and the `ValueError` from `int(round(...))`
on a NaN average delay. -/
inductive PErr
  | modelNotFound
  | insufficientHistory
  | featureEngineering
  | notFitted
  | nanAverage
deriving DecidableEq, Repr

/-- `EMIPaymentPredictor.load_model`: resolve the artifact (given path
or `MODEL_PATH`) and install model plus feature names, or fail with
`FileNotFoundError`. -/
def load_model (w : World) (eng : Engine) (model_path : Option String) : Except PErr Engine :=
  match resolveModel w (model_path.getD MODEL_PATH) with
  | none => .error .modelNotFound
  | some (r, names) => .ok { eng with model := some r, feature_names := some names }

/-- The result dictionary of `predict_next_payment_date`.  Dates are
day numbers; `last_demand` and `next_demand` are the optional
demand-date fields. -/
structure PredictionResult where
  customer_id : String
  predicted_rd : ℤ
  days_until_payment : ℤ
  last_payment_rd : ℤ
  last_demand : Option Date
  next_demand : Option Date
  confidence_score : ℚ
  payment_history : List (ℤ × Option ℤ)
  average_delay : Option ℚ
  payment_count : ℕ
deriving DecidableEq, Repr

/-- `EMIPaymentPredictor._calculate_confidence`, which reads exactly
the `total_payments` and `std_delay` entries of the feature row. -/
def calculate_confidence (total_payments : ℕ) (std_delay : ℚ) : ℚ :=
  let confidence : ℚ := 7/10
  let confidence :=
    if total_payments > 10 then confidence + 1/10
    else if total_payments > 5 then confidence + 1/20
    else confidence
  let confidence :=
    if std_delay > 10 then confidence - 1/10
    else if std_delay < 3 then confidence + 1/10
    else confidence
  min (19/20) (max (1/2) confidence)

/-- `_calculate_confidence` acting on the stored square of the
standard deviation: for `v = std_delay ^ 2` with `std_delay ≥ 0`,
`std_delay > 10 ↔ v > 100` and `std_delay < 3 ↔ v < 9`; a `none`
variance is the NaN standard deviation, whose comparisons are both
false in Python. -/
def confidenceOfVar (total_payments : ℕ) (var_delay : Option ℚ) : ℚ :=
  let confidence : ℚ := 7/10
  let confidence :=
    if total_payments > 10 then confidence + 1/10
    else if total_payments > 5 then confidence + 1/20
    else confidence
  let confidence :=
    match var_delay with
    | none => confidence
    | some v =>
      if v > 100 then confidence - 1/10
      else if v < 9 then confidence + 1/10
      else confidence
  min (19/20) (max (1/2) confidence)

/-- `nextDemandDate`: the next-demand-date computation inside
`predict_next_payment_date` — same day of month in the next month
(December wraps to January of the next year); the `try/except` that
builds the Timestamp falls back to `min(day_of_month, last_day)` when
the day does not exist in the target month. -/
def nextDemandDate (d : Date) : Date :=
  let next_year : Int := if d.month = 12 then d.year + 1 else d.year
  let next_month : ℕ := if d.month = 12 then 1 else d.month + 1
  if d.day ≤ daysInMonth next_year next_month then
    ⟨next_year, next_month, d.day⟩
  else
    ⟨next_year, next_month, min d.day (daysInMonth next_year next_month)⟩

/-- The body of `predict_next_payment_date` once a model `r` is
available: load and process the data, check the history length,
engineer features, take the primary demand-date path when the
customer's last record has a scheduled date and the model fallback
otherwise, and assemble the result dictionary. -/
def predictCore (r : Reg) (customer_id : String) (data : DataFrame) (now : ℤ) :
    Except PErr PredictionResult :=
  let pdf := calculate_payment_delays (load_data data)
  let customer_df := pdf.rows.filter (fun x => x.customer_id == customer_id)
  if customer_df.length < MIN_HISTORY_RECORDS then .error .insufficientHistory
  else
    match engineer_features pdf customer_id now with
    | none => .error .featureEngineering
    | some features =>
      let payment_history := customer_df.map (fun x => (toRd x.payment_date, x.delay_days))
      let average_delay := meanZ (customer_df.filterMap (fun x => x.delay_days))
      let last_demand : Option Date :=
        if pdf.hasScheduledCol then
          (customer_df.getLast?).bind (fun lr => lr.scheduled_date)
        else none
      let next_demand : Option Date := last_demand.map nextDemandDate
      let predictedE : Except PErr ℤ :=
        match next_demand with
        | some nd =>
          match average_delay with
          | some a => .ok (toRd nd + pyRound a)
          | none => .error .nanAverage
        | none =>
          match r with
          | .fitted g => .ok (features.last_payment_rd + max 0 (pyRound (g features)))
          | .unfitted => .error .notFitted
      match predictedE with
      | .error e => .error e
      | .ok predicted =>
        .ok
          { customer_id := customer_id
            predicted_rd := predicted
            days_until_payment := predicted - features.last_payment_rd
            last_payment_rd := features.last_payment_rd
            last_demand := last_demand
            next_demand := next_demand
            confidence_score := confidenceOfVar features.total_payments features.var_delay
            payment_history := payment_history.drop (payment_history.length - 5)
            average_delay := average_delay
            payment_count := customer_df.length }

/-- `EMIPaymentPredictor.predict_next_payment_date`: load the model
lazily when `self.model is None` (mutating the engine), then run
`predictCore`.  The engine state is returned together with the
outcome, because Python mutation survives a later exception. -/
def predict_next_payment_date (w : World) (eng : Engine) (customer_id : String)
    (data : DataFrame) (now : ℤ) : Engine × Except PErr PredictionResult :=
  match eng.model with
  | some r => (eng, predictCore r customer_id data now)
  | none =>
    match load_model w eng none with
    | .error e => (eng, .error e)
    | .ok eng' =>
      match eng'.model with
      | some r => (eng', predictCore r customer_id data now)
      | none => (eng', .error .modelNotFound)

/-- `EMIPaymentPredictor.predict_batch`: run the single-customer
prediction per identifier, appending successes and skipping failures
(`except Exception: continue`), threading the engine state. -/
def predict_batch (w : World) (eng : Engine) (customer_ids : List String)
    (data : DataFrame) (now : ℤ) : Engine × List PredictionResult :=
  match customer_ids with
  | [] => (eng, [])
  | c :: rest =>
    let p := predict_next_payment_date w eng c data now
    let tail := predict_batch w p.1 rest data now
    match p.2 with
    | .ok result => (tail.1, result :: tail.2)
    | .error _ => (tail.1, tail.2)

/-! ## Training (`predictor.py`, `train_model`) -/

/-- The metrics dictionary returned by `train_model`. -/
structure Metrics where
  train_mae : ℚ
  test_mae : ℚ
  train_rmse : ℚ
  test_rmse : ℚ
deriving DecidableEq, Repr

/-- The errors `train_model` can raise: its own
`ValueError("Insufficient data for training")`, the `ValueError` that
`train_test_split` raises when the table is too small for an 80/20
split, a failure inside the external `xgb` fit call, and a failure
while persisting with `joblib.dump`. -/
inductive TErr
  | insufficientData
  | splitError
  | fitError
  | dumpError
deriving DecidableEq, Repr

/-- The numeric feature-column order of the training table
(`X.columns.tolist()` after dropping `last_payment_date`): amount
columns are present only when the data has an `amount` column. -/
def featureColumnNames (hasAmountCol : Bool) : List String :=
  ["total_payments", "avg_delay", "std_delay", "max_delay", "min_delay",
   "recent_avg_delay", "recent_trend", "avg_interval", "interval_std",
   "preferred_day", "preferred_month",
   "delay_mean_7d", "payment_count_7d", "delay_mean_14d", "payment_count_14d",
   "delay_mean_30d", "payment_count_30d", "delay_mean_60d", "payment_count_60d",
   "delay_mean_90d", "payment_count_90d",
   "last_delay", "days_since_last_payment"] ++
  (if hasAmountCol then ["avg_amount", "last_amount"] else [])

/-- Outcomes of the external collaborators used by `train_model`:
whether the `xgb` fit call succeeds (and with which fitted regressor),
the evaluation metrics it then reports, and whether `joblib.dump`
succeeds. -/
structure TrainEnv where
  fit : Option (Feature → ℚ)
  metrics : Metrics
  dumpOk : Bool

/-- `EMIPaymentPredictor.train_model`, with its mutations in source
order: the data/table checks happen before any mutation, but
`self.model = xgb.XGBRegressor(...)` runs before `fit`, so a failing
fit leaves an unfitted regressor in `self.model`; a failing dump
leaves the freshly fitted model.  The engine state after the call is
returned with the outcome, as Python mutation survives exceptions. -/
def train_model (env : TrainEnv) (eng : Engine) (data : DataFrame) (now : ℤ) :
    Engine × Except TErr Metrics :=
  let df := calculate_payment_delays (load_data data)
  match prepare_training_data df now with
  | none => (eng, .error .insufficientData)
  | some tbl =>
    if tbl.length = 0 then (eng, .error .insufficientData)
    else if tbl.length < 2 then (eng, .error .splitError)
    else
      let eng₁ := { eng with model := some Reg.unfitted }
      match env.fit with
      | none => (eng₁, .error .fitError)
      | some g =>
        let eng₂ := { eng₁ with
          model := some (Reg.fitted g)
          feature_names := some (featureColumnNames df.hasAmountCol) }
        if env.dumpOk then (eng₂, .ok env.metrics)
        else (eng₂, .error .dumpError)

/-! ## Spec-worded reference definitions

These follow the specification text, to be compared with the
definitions translated from the source. -/

/-- The delay rule as the spec words it: per row, use
`payment_date - scheduled_date` when that row's scheduled date exists,
otherwise the gap to the previous payment of the *same customer*, with
each customer's first record getting delay 0.  The accumulator maps a
customer to its latest payment date seen so far. -/
def specDelaysGo (seen : List (String × ℤ)) : List RawRow → List (Option ℤ)
  | [] => []
  | r :: rs =>
    let d : Option ℤ :=
      match r.scheduled_date with
      | some s => some (toRd r.payment_date - toRd s)
      | none =>
        match seen.lookup r.customer_id with
        | some q => some (toRd r.payment_date - q)
        | none => some 0
    d :: specDelaysGo ((r.customer_id, toRd r.payment_date) :: seen) rs

/-- The spec-worded delay column over a (sorted) row list. -/
def specDelays (l : List RawRow) : List (Option ℤ) :=
  specDelaysGo [] l

/-- The training table as the claim words it: for every customer with
at least 3 records, slices of increasing length starting at 3 records;
the FeatureVector of the first `k` records is paired with the days
from that slice's last payment (row `k - 1`) to the next payment after
it (row `k`), and the final slice gets a degenerate target equal to
the gap from its last record's immediate predecessor; `none` when no
customer qualifies. -/
def specTrainingTable (d : PFrame) (now : ℤ) : Option (List (Feature × ℤ)) :=
  let pairs := (uniqueIds d.rows).flatMap (fun cid =>
    let customer_df := d.rows.filter (fun r => r.customer_id == cid)
    let n := customer_df.length
    if n < 3 then []
    else
      (List.range' 3 (n - 2)).filterMap (fun k =>
        match engineer_features { d with rows := customer_df.take k } cid now with
        | none => none
        | some f =>
          let target : ℤ :=
            if k < n then nthRd customer_df k - nthRd customer_df (k - 1)
            else nthRd customer_df (n - 1) - nthRd customer_df (n - 2)
          some (f, target)))
  if pairs.length = 0 then none else some pairs

/-- The next demand date as the spec words it: advance by exactly one
calendar month (December rolling to January of the next year),
preserving the day of month, clamping to the target month's last day
when that day does not exist. -/
def nextDemandDateSpec (d : Date) : Date :=
  let next_year : Int := if d.month = 12 then d.year + 1 else d.year
  let next_month : ℕ := if d.month = 12 then 1 else d.month + 1
  let last_day := daysInMonth next_year next_month
  ⟨next_year, next_month, if d.day ≤ last_day then d.day else last_day⟩

/-- The confidence score as the claim words it: start at 0.70; add
0.10 if `total_payments > 10`, else 0.05 if `total_payments > 5`;
subtract 0.10 if the standard deviation exceeds 10, add 0.10 if it is
below 3; clamp to [0.50, 0.95]. -/
def confidenceSpec (total_payments : ℕ) (std_delay : ℚ) : ℚ :=
  let c : ℚ := 7/10
  let c := if total_payments > 10 then c + 1/10 else c
  let c := if ¬ total_payments > 10 ∧ total_payments > 5 then c + 1/20 else c
  let c := if std_delay > 10 then c - 1/10 else c
  let c := if std_delay < 3 then c + 1/10 else c
  min (19/20) (max (1/2) c)

/-! ## Theorems -/

/-- Concrete two-customer frame without a `scheduled_date` column:
customer A pays on 2024-01-01, customer B pays once on 2024-01-11. -/
def c2Frame : DataFrame :=
  { hasScheduledCol := false
    hasAmountCol := false
    rows := [⟨"A", ⟨2024, 1, 1⟩, none, none⟩, ⟨"B", ⟨2024, 1, 11⟩, none, none⟩] }

/-- Claim C2 is false on the code: without a `scheduled_date` column,
`calculate_payment_delays` takes successive differences over the whole
sorted frame, so customer B's first record gets the 10-day gap to
customer A's earlier payment instead of the claimed per-customer
delay 0. -/
theorem C2_counterexample :
    ((calculate_payment_delays (load_data c2Frame)).rows.map (fun r => r.delay_days)
      = [some 0, some 10])
    ∧ specDelays (load_data c2Frame).rows = [some 0, some 0]
    ∧ (calculate_payment_delays (load_data c2Frame)).rows.map (fun r => r.delay_days)
      ≠ specDelays (load_data c2Frame).rows := by
  decide

/-- Concrete processed frame with one customer holding exactly three
records, one calendar month apart, all paid on the scheduled day. -/
def c3Frame : PFrame :=
  calculate_payment_delays (load_data
    { hasScheduledCol := true
      hasAmountCol := false
      rows := [⟨"A", ⟨2024, 1, 5⟩, some ⟨2024, 1, 5⟩, none⟩,
               ⟨"A", ⟨2024, 2, 5⟩, some ⟨2024, 2, 5⟩, none⟩,
               ⟨"A", ⟨2024, 3, 5⟩, some ⟨2024, 3, 5⟩, none⟩] })

/-- Claim C3 is false on the code: for a customer with exactly three
records, `prepare_training_data` builds its single example from the
first **two** records (`total_payments = 2`), not from a slice of at
least three records as the claim states. -/
theorem C3_counterexample :
    ((prepare_training_data c3Frame 0).map
        (fun l => l.map (fun p => (p.1.total_payments, p.2))) = some [(2, 29)])
    ∧ ((specTrainingTable c3Frame 0).map
        (fun l => l.map (fun p => (p.1.total_payments, p.2))) = some [(3, 29)])
    ∧ prepare_training_data c3Frame 0 ≠ specTrainingTable c3Frame 0 := by
  decide

/-- Concrete valid training data for C7: one customer with four
records, which yields a two-example training table, enough to pass
every pre-fit check of `train_model`. -/
def c7Frame : DataFrame :=
  { hasScheduledCol := true
    hasAmountCol := false
    rows := [⟨"A", ⟨2024, 1, 5⟩, some ⟨2024, 1, 5⟩, none⟩,
             ⟨"A", ⟨2024, 2, 5⟩, some ⟨2024, 2, 5⟩, none⟩,
             ⟨"A", ⟨2024, 3, 5⟩, some ⟨2024, 3, 5⟩, none⟩,
             ⟨"A", ⟨2024, 4, 5⟩, some ⟨2024, 4, 5⟩, none⟩] }

/-- An engine that already holds a loaded, working (fitted) model. -/
def c7Engine : Engine := ⟨some (Reg.fitted (fun _ => 3)), some ["total_payments"]⟩

/-- A training environment whose external `xgb` fit call fails. -/
def c7Env : TrainEnv := ⟨none, ⟨0, 0, 0, 0⟩, true⟩

/-- Claim C7 fails on the code: `train_model` assigns
`self.model = xgb.XGBRegressor(...)` before calling `fit`, so when the
fit call raises on otherwise valid data, the previously loaded fitted
model has already been replaced by an unfitted regressor — the failed
`train` does not leave the engine unchanged. -/
theorem C7_failed_train_corrupts_model :
    (train_model c7Env c7Engine c7Frame 0).2 = .error .fitError
    ∧ (train_model c7Env c7Engine c7Frame 0).1.model = some Reg.unfitted
    ∧ (train_model c7Env c7Engine c7Frame 0).1.model ≠ c7Engine.model := by
  refine ⟨by decide, rfl, fun h => ?_⟩
  exact Reg.noConfusion (Option.some.inj h)

/-- Claim C4: the confidence score computed by `_calculate_confidence`
equals the staged computation described by the spec (base 0.70, data
bonus, volatility adjustment, clamp) and always lies in
[0.50, 0.95], for every total-payment count and every standard
deviation. -/
theorem C4_confidence_formula_and_bounds (total_payments : ℕ) (std_delay : ℚ) :
    calculate_confidence total_payments std_delay = confidenceSpec total_payments std_delay
    ∧ 1/2 ≤ calculate_confidence total_payments std_delay
    ∧ calculate_confidence total_payments std_delay ≤ 19/20 := by
  refine ⟨?_, ?_, ?_⟩
  · unfold calculate_confidence confidenceSpec
    by_cases h3 : std_delay > 10
    · have h4 : ¬ std_delay < 3 := by linarith
      by_cases h1 : total_payments > 10 <;> by_cases h2 : total_payments > 5 <;>
        simp [h1, h2, h3, h4]
    · by_cases h4 : std_delay < 3 <;>
        by_cases h1 : total_payments > 10 <;> by_cases h2 : total_payments > 5 <;>
        simp [h1, h2, h3, h4]
  · exact le_min (by norm_num) (le_max_left _ _)
  · exact min_le_left _ _

/-! ### Permutation and counting lemmas for the sorting step -/

/-- Stable insertion produces a permutation of consing. -/
theorem insertByDate_perm (r : RawRow) (l : List RawRow) :
    (insertByDate r l).Perm (r :: l) := by
  induction l with
  | nil => simp [insertByDate]
  | cons x xs ih =>
    unfold insertByDate
    split
    · exact List.Perm.refl _
    · exact ((ih.cons x).trans (List.Perm.swap r x xs))

/-- The insertion-sort fold produces a permutation of the input
prepended to the accumulator. -/
theorem sortFold_perm (l acc : List RawRow) :
    (l.foldl (fun a r => insertByDate r a) acc).Perm (l ++ acc) := by
  induction l generalizing acc with
  | nil => simp
  | cons x xs ih =>
    have h1 := ih (insertByDate x acc)
    have h2 : (xs ++ insertByDate x acc).Perm (xs ++ x :: acc) :=
      List.Perm.append_left xs (insertByDate_perm x acc)
    have h3 : (xs ++ x :: acc).Perm (x :: (xs ++ acc)) := List.perm_middle
    simpa using (h1.trans (h2.trans h3))

/-- Sorting by payment date permutes the rows. -/
theorem sortByDate_perm (l : List RawRow) : (sortByDate l).Perm l := by
  have h := sortFold_perm l []
  simpa [sortByDate] using h

/-- `diffDelayRows` rebuilds every row with the same customer
identifier, so per-customer row counts survive it. -/
theorem length_filter_diffDelayRows (l : List RawRow) (prev : Option ℤ) (cid : String) :
    ((diffDelayRows l prev).filter (fun x => x.customer_id == cid)).length
      = (l.filter (fun r => r.customer_id == cid)).length := by
  induction l generalizing prev with
  | nil => rfl
  | cons r rs ih =>
    by_cases h : r.customer_id == cid <;>
      simp [diffDelayRows, List.filter, h, ih]

/-- A customer has as many rows in the processed frame as in the raw
input: sorting permutes and the delay column rewrite keeps every row's
customer identifier. -/
theorem length_filter_processed (d : DataFrame) (cid : String) :
    ((calculate_payment_delays (load_data d)).rows.filter
        (fun x => x.customer_id == cid)).length
      = (d.rows.filter (fun r => r.customer_id == cid)).length := by
  have hperm : ((sortByDate d.rows).filter (fun r => r.customer_id == cid)).length
      = (d.rows.filter (fun r => r.customer_id == cid)).length :=
    ((sortByDate_perm d.rows).filter _).length_eq
  unfold calculate_payment_delays load_data
  split
  · simp only [List.filter_map]
    rw [List.length_map]
    exact hperm
  · rw [length_filter_diffDelayRows]
    exact hperm

/-- Claim C6: with a model available, a customer with fewer than
`MIN_HISTORY_RECORDS` (3) records in the data fails with the
insufficient-history error instead of producing a result. -/
theorem C6_insufficient_history (w : World) (eng : Engine) (r : Reg) (customer_id : String)
    (d : DataFrame) (now : ℤ)
    (hm : eng.model = some r)
    (hlen : (d.rows.filter (fun x => x.customer_id == customer_id)).length
      < MIN_HISTORY_RECORDS) :
    (predict_next_payment_date w eng customer_id d now).2 = .error .insufficientHistory := by
  have hlen' : ((calculate_payment_delays (load_data d)).rows.filter
      (fun x => x.customer_id == customer_id)).length < MIN_HISTORY_RECORDS := by
    rw [length_filter_processed]
    exact hlen
  unfold predict_next_payment_date
  rw [hm]
  unfold predictCore
  simp only [hlen', if_pos]

/-- Claim C10: with no model loaded and no artifact at any candidate
path, `predict_next_payment_date` fails with the model-not-found error
for every customer and data set, before any prediction logic runs. -/
theorem C10_model_required (w : World) (eng : Engine) (customer_id : String)
    (d : DataFrame) (now : ℤ)
    (hm : eng.model = none)
    (h1 : w.disk MODEL_PATH = none)
    (h2 : w.disk (joinPath w.scriptDir MODEL_PATH) = none)
    (h3 : w.disk (joinPath w.parentDir MODEL_PATH) = none) :
    (predict_next_payment_date w eng customer_id d now).2 = .error .modelNotFound := by
  unfold predict_next_payment_date
  rw [hm]
  unfold load_model resolveModel
  simp [h1, h2, h3]

/-- A successful `load_model` installs some regressor. -/
theorem load_model_installs (w : World) (eng eng' : Engine)
    (h : load_model w eng none = .ok eng') : ∃ r, eng'.model = some r := by
  unfold load_model at h
  cases hres : resolveModel w (Option.getD none MODEL_PATH) with
  | none => rw [hres] at h; exact Except.noConfusion h
  | some rn =>
    obtain ⟨r, names⟩ := rn
    rw [hres] at h
    injection h with h'
    exact ⟨r, by rw [← h']⟩

/-- The engine state left by one prediction call does not change the
outcome of later calls: a call either finds the model already loaded
(state unchanged) or performs the same deterministic lazy load that
any later call would perform. -/
theorem predict_state_stable (w : World) (eng : Engine) (c c' : String)
    (d d' : DataFrame) (now now' : ℤ) :
    (predict_next_payment_date w
        ((predict_next_payment_date w eng c d now).1) c' d' now').2
      = (predict_next_payment_date w eng c' d' now').2 := by
  cases hm : eng.model with
  | some r => simp [predict_next_payment_date, hm]
  | none =>
    cases hl : load_model w eng none with
    | error e => simp [predict_next_payment_date, hm, hl]
    | ok eng' =>
      obtain ⟨r, hr⟩ := load_model_installs w eng eng' hl
      simp [predict_next_payment_date, hm, hl, hr]

/-- `filterMap` respects pointwise-equal functions. -/
theorem filterMapCongr {α β : Type} (l : List α) (f g : α → Option β)
    (h : ∀ x ∈ l, f x = g x) : l.filterMap f = l.filterMap g := by
  induction l with
  | nil => rfl
  | cons x xs ih =>
    rw [List.filterMap_cons, List.filterMap_cons, h x (by simp),
      ih (fun y hy => h y (by simp [hy]))]

/-- Claim C5: `predict_batch` is total (exceptions are caught per
customer) and returns exactly the successfully predicted subset, in
input order, with no placeholder for skipped identifiers — for every
identifier list, every engine state, and every data set; the subset
may be empty. -/
theorem C5_batch_skips_failures (w : World) (eng : Engine) (customer_ids : List String)
    (d : DataFrame) (now : ℤ) :
    (predict_batch w eng customer_ids d now).2
      = customer_ids.filterMap
          (fun c => ((predict_next_payment_date w eng c d now).2).toOption) := by
  induction customer_ids generalizing eng with
  | nil => rfl
  | cons c rest ih =>
    have htail : (predict_batch w ((predict_next_payment_date w eng c d now).1)
        rest d now).2
        = rest.filterMap
            (fun c' => ((predict_next_payment_date w eng c' d now).2).toOption) := by
      rw [ih ((predict_next_payment_date w eng c d now).1)]
      exact filterMapCongr rest _ _
        (fun x _ => by rw [predict_state_stable w eng c x d d now now])
    rw [List.filterMap_cons]
    cases h2 : (predict_next_payment_date w eng c d now).2 with
    | ok result => simp [predict_batch, h2, htail, Except.toOption]
    | error e => simp [predict_batch, h2, htail, Except.toOption]

/-- The clock feeds exactly one engineered feature: evaluating at time
`now` is evaluating at time 0 and then overwriting
`days_since_last_payment`. -/
theorem engineer_features_now_shift (d : PFrame) (cid : String) (now : ℤ) :
    engineer_features d cid now
      = (engineer_features d cid 0).map
          (fun f => { f with days_since_last_payment := now - f.last_payment_rd }) := by
  unfold engineer_features
  by_cases h : (d.rows.filter (fun r => r.customer_id == cid)).length < 2
  · simp [h]
  · simp only [h, if_neg, if_false]
    cases hgl : (d.rows.filter (fun r => r.customer_id == cid)).getLast? with
    | none => simp
    | some lp => simp

/-- Claim C8: the rolling-window features are anchored at the
customer's own data — they do not depend on the evaluation clock, and
computing them over the whole frame equals computing them over the
customer's own filtered slice — and the window builder reports mean 0
and count 0 (not NaN) for a window with zero records. -/
theorem C8_window_features (d : PFrame) (customer_id : String) (now now' : ℤ) :
    ((engineer_features d customer_id now).map (fun f => f.windows)
      = (engineer_features d customer_id now').map (fun f => f.windows))
    ∧ engineer_features d customer_id now
      = engineer_features
          { d with rows := d.rows.filter (fun r => r.customer_id == customer_id) }
          customer_id now
    ∧ ∀ window_df : List Row, window_df.length = 0
        → windowFeat window_df = ⟨some 0, 0⟩ := by
  refine ⟨?_, ?_, ?_⟩
  · rw [engineer_features_now_shift d customer_id now,
      engineer_features_now_shift d customer_id now']
    cases engineer_features d customer_id 0 <;> rfl
  · simp only [engineer_features, List.filter_filter, Bool.and_self]
  · intro window_df h
    rw [List.length_eq_zero] at h
    subst h
    rfl

/-- A customer with at least two records always gets a feature row. -/
theorem engineer_features_isSome (d : PFrame) (cid : String) (now : ℤ)
    (h : ¬ (d.rows.filter (fun r => r.customer_id == cid)).length < 2) :
    ∃ f, engineer_features d cid now = some f := by
  unfold engineer_features
  rw [if_neg h]
  cases hgl : (d.rows.filter (fun r => r.customer_id == cid)).getLast? with
  | none =>
    exfalso
    apply h
    rw [List.getLast?_eq_none_iff] at hgl
    rw [hgl]
    simp
  | some lp => exact ⟨_, rfl⟩

/-- On the primary (demand-date) path, the predicted date produced by
`predictCore` does not depend on the evaluation clock. -/
theorem predictCore_now_irrelevant (r : Reg) (customer_id : String) (d : DataFrame)
    (now₁ now₂ : ℤ) (sd : Date)
    (hcol : (calculate_payment_delays (load_data d)).hasScheduledCol = true)
    (hsd : (((calculate_payment_delays (load_data d)).rows.filter
        (fun x => x.customer_id == customer_id)).getLast?).bind
        (fun lr => lr.scheduled_date) = some sd) :
    (predictCore r customer_id d now₁).map (fun res => res.predicted_rd)
      = (predictCore r customer_id d now₂).map (fun res => res.predicted_rd) := by
  simp only [predictCore]
  by_cases hlen : ((calculate_payment_delays (load_data d)).rows.filter
      (fun x => x.customer_id == customer_id)).length < MIN_HISTORY_RECORDS
  · simp [hlen]
  · rw [engineer_features_now_shift _ _ now₁, engineer_features_now_shift _ _ now₂]
    cases hfe : engineer_features (calculate_payment_delays (load_data d)) customer_id 0 with
    | none => simp [hlen, hfe]
    | some f =>
      simp only [hlen, if_neg, if_false, hfe, Option.map_some']
      simp only [hcol, if_pos, if_true, hsd]
      cases havg : meanZ (((calculate_payment_delays (load_data d)).rows.filter
          (fun x => x.customer_id == customer_id)).filterMap (fun x => x.delay_days)) with
      | none => simp [havg]
      | some a => simp [havg]

/-- Claim C9: the primary prediction path is deterministic — two calls
on the same data whose customer's latest record carries a demand date
yield the same predicted date whatever the clock reads; the
clock-dependent `days_since_last_payment` feature does not feed the
primary date formula. -/
theorem C9_primary_path_deterministic (w : World) (eng : Engine) (customer_id : String)
    (d : DataFrame) (now₁ now₂ : ℤ) (sd : Date)
    (hcol : (calculate_payment_delays (load_data d)).hasScheduledCol = true)
    (hsd : (((calculate_payment_delays (load_data d)).rows.filter
        (fun x => x.customer_id == customer_id)).getLast?).bind
        (fun lr => lr.scheduled_date) = some sd) :
    ((predict_next_payment_date w eng customer_id d now₁).2).map (fun res => res.predicted_rd)
      = ((predict_next_payment_date w eng customer_id d now₂).2).map
          (fun res => res.predicted_rd) := by
  cases hm : eng.model with
  | some r =>
    simp only [predict_next_payment_date, hm]
    exact predictCore_now_irrelevant r customer_id d now₁ now₂ sd hcol hsd
  | none =>
    cases hl : load_model w eng none with
    | error e => simp [predict_next_payment_date, hm, hl]
    | ok eng' =>
      obtain ⟨r, hr⟩ := load_model_installs w eng eng' hl
      simp only [predict_next_payment_date, hm, hl, hr]
      exact predictCore_now_irrelevant r customer_id d now₁ now₂ sd hcol hsd

/-- The next-demand computation agrees with the spec's wording of
"advance one month, preserve the day, clamp to the last day". -/
theorem nextDemand_eq_spec (dt : Date) : nextDemandDate dt = nextDemandDateSpec dt := by
  unfold nextDemandDate nextDemandDateSpec
  by_cases h : dt.day ≤ daysInMonth (if dt.month = 12 then dt.year + 1 else dt.year)
      (if dt.month = 12 then 1 else dt.month + 1)
  · simp [h]
  · simp [h, Nat.min_eq_right (Nat.le_of_not_le h)]

/-- On the primary path the produced result's predicted date is
exactly next demand date plus the rounded average delay. -/
theorem predictCore_primary_value (r : Reg) (customer_id : String) (d : DataFrame)
    (now : ℤ) (sd : Date) (a : ℚ)
    (hcol : (calculate_payment_delays (load_data d)).hasScheduledCol = true)
    (hlen : ¬ ((calculate_payment_delays (load_data d)).rows.filter
        (fun x => x.customer_id == customer_id)).length < MIN_HISTORY_RECORDS)
    (hsd : (((calculate_payment_delays (load_data d)).rows.filter
        (fun x => x.customer_id == customer_id)).getLast?).bind
        (fun lr => lr.scheduled_date) = some sd)
    (havg : meanZ (((calculate_payment_delays (load_data d)).rows.filter
        (fun x => x.customer_id == customer_id)).filterMap (fun x => x.delay_days))
        = some a) :
    (predictCore r customer_id d now).map (fun res => res.predicted_rd)
      = .ok (toRd (nextDemandDate sd) + pyRound a)
    ∧ (predictCore r customer_id d now).map (fun res => res.next_demand)
      = .ok (some (nextDemandDate sd)) := by
  have h2 : ¬ ((calculate_payment_delays (load_data d)).rows.filter
      (fun x => x.customer_id == customer_id)).length < 2 := by
    intro hh
    exact hlen (Nat.lt_of_lt_of_le hh (by norm_num [MIN_HISTORY_RECORDS]))
  obtain ⟨f, hf⟩ :=
    engineer_features_isSome (calculate_payment_delays (load_data d)) customer_id now h2
  simp only [predictCore]
  rw [hcol, hsd]
  constructor <;> simp [hlen, hf, havg, Except.map]

/-- Claim C1: when the customer's most recent record carries a demand
date, the prediction is the next demand date — one calendar month
ahead, day preserved, clamped to the target month's last day, December
rolling over — plus the rounded mean of the customer's `delay_days`
history; in particular 2024-01-31 projects to 2024-02-29 and
2023-02-28 to 2023-03-28. -/
theorem C1_demand_date_projection (w : World) (eng : Engine) (r : Reg)
    (customer_id : String) (d : DataFrame) (now : ℤ) (sd : Date) (a : ℚ)
    (hm : eng.model = some r)
    (hcol : (calculate_payment_delays (load_data d)).hasScheduledCol = true)
    (hlen : ¬ ((calculate_payment_delays (load_data d)).rows.filter
        (fun x => x.customer_id == customer_id)).length < MIN_HISTORY_RECORDS)
    (hsd : (((calculate_payment_delays (load_data d)).rows.filter
        (fun x => x.customer_id == customer_id)).getLast?).bind
        (fun lr => lr.scheduled_date) = some sd)
    (havg : meanZ (((calculate_payment_delays (load_data d)).rows.filter
        (fun x => x.customer_id == customer_id)).filterMap (fun x => x.delay_days))
        = some a) :
    ((predict_next_payment_date w eng customer_id d now).2).map (fun res => res.predicted_rd)
      = .ok (toRd (nextDemandDateSpec sd) + pyRound a)
    ∧ ((predict_next_payment_date w eng customer_id d now).2).map (fun res => res.next_demand)
      = .ok (some (nextDemandDateSpec sd))
    ∧ nextDemandDate ⟨2024, 1, 31⟩ = ⟨2024, 2, 29⟩
    ∧ nextDemandDate ⟨2023, 2, 28⟩ = ⟨2023, 3, 28⟩ := by
  have hp := predictCore_primary_value r customer_id d now sd a hcol hlen hsd havg
  rw [← nextDemand_eq_spec sd]
  refine ⟨?_, ?_, by decide, by decide⟩
  · simp only [predict_next_payment_date, hm]
    exact hp.1
  · simp only [predict_next_payment_date, hm]
    exact hp.2

/-! ### Concrete witness data -/

/-- A three-record, always-on-time customer with demand dates. -/
def demoFrame : DataFrame :=
  { hasScheduledCol := true
    hasAmountCol := false
    rows := [⟨"A", ⟨2024, 1, 5⟩, some ⟨2024, 1, 5⟩, none⟩,
             ⟨"A", ⟨2024, 2, 5⟩, some ⟨2024, 2, 5⟩, none⟩,
             ⟨"A", ⟨2024, 3, 5⟩, some ⟨2024, 3, 5⟩, none⟩] }

/-- A world with no model artifact on disk anywhere. -/
def demoWorld : World := ⟨fun _ => none, "scriptdir", "parentdir"⟩

/-- An engine that already holds a fitted model. -/
def demoEngine : Engine := ⟨some (Reg.fitted (fun _ => 0)), some []⟩

/-- An engine with nothing loaded. -/
def emptyEngine : Engine := ⟨none, none⟩

/-- Witness for C1 at a concrete history: the last demand date
2024-03-05 projects to 2024-04-05 and the prediction is that day plus
the rounded zero average delay. -/
theorem C1_witness :
    ((predict_next_payment_date demoWorld demoEngine "A" demoFrame 0).2).map
        (fun res => res.predicted_rd)
      = .ok (toRd (nextDemandDateSpec ⟨2024, 3, 5⟩) + pyRound 0)
    ∧ ((predict_next_payment_date demoWorld demoEngine "A" demoFrame 0).2).map
        (fun res => res.next_demand)
      = .ok (some (nextDemandDateSpec ⟨2024, 3, 5⟩))
    ∧ nextDemandDate ⟨2024, 1, 31⟩ = ⟨2024, 2, 29⟩
    ∧ nextDemandDate ⟨2023, 2, 28⟩ = ⟨2023, 3, 28⟩ :=
  C1_demand_date_projection demoWorld demoEngine (Reg.fitted (fun _ => 0)) "A" demoFrame 0
    ⟨2024, 3, 5⟩ 0 rfl rfl (by decide) (by decide) (by decide)

/-- Witness for C6: a customer with no records at all fails with the
insufficient-history error. -/
theorem C6_witness :
    (predict_next_payment_date demoWorld demoEngine "Z" demoFrame 0).2
      = .error .insufficientHistory :=
  C6_insufficient_history demoWorld demoEngine (Reg.fitted (fun _ => 0)) "Z" demoFrame 0
    rfl (by decide)

/-- Witness for C9: predicting at two different clock readings yields
the same predicted date on the demand-date path. -/
theorem C9_witness :
    ((predict_next_payment_date demoWorld demoEngine "A" demoFrame 100).2).map
        (fun res => res.predicted_rd)
      = ((predict_next_payment_date demoWorld demoEngine "A" demoFrame 999).2).map
          (fun res => res.predicted_rd) :=
  C9_primary_path_deterministic demoWorld demoEngine "A" demoFrame 100 999 ⟨2024, 3, 5⟩
    rfl (by decide)

/-- Witness for C10: an unloaded engine over an empty disk fails with
the model-not-found error even for a demand-date customer. -/
theorem C10_witness :
    (predict_next_payment_date demoWorld emptyEngine "A" demoFrame 0).2
      = .error .modelNotFound :=
  C10_model_required demoWorld emptyEngine "A" demoFrame 0 rfl rfl rfl rfl

/-- The processed demo frame. -/
def demoPFrame : PFrame := calculate_payment_delays (load_data demoFrame)

/-- Witness for C8: window features of the demo customer agree across
clock readings, and the empty window reports mean 0 and count 0. -/
theorem C8_witness :
    ((engineer_features demoPFrame "A" 100).map (fun f => f.windows)
      = (engineer_features demoPFrame "A" 999).map (fun f => f.windows))
    ∧ windowFeat [] = ⟨some 0, 0⟩ :=
  ⟨(C8_window_features demoPFrame "A" 100 999).1,
   (C8_window_features demoPFrame "A" 100 999).2.2 [] rfl⟩

/-! ### The corrected delay semantics (claim C2) -/

/-- Every row produced by the diff fallback has a defined delay. -/
theorem diffDelayRows_all_some (l : List RawRow) (prev : Option ℤ) :
    ∀ x ∈ diffDelayRows l prev, x.delay_days.isSome = true := by
  induction l generalizing prev with
  | nil => intro x hx; cases hx
  | cons r rs ih =>
    intro x hx
    cases hx with
    | head => rfl
    | tail _ hx' => exact ih (some (toRd r.payment_date)) x hx'

/-- In the diff fallback, each row after the first gets the gap to the
immediately preceding row of the frame, regardless of customer. -/
theorem diffDelayRows_get_succ (l : List RawRow) (i : ℕ) (r r' : RawRow)
    (prev : Option ℤ)
    (h : l.get? i = some r) (h' : l.get? (i + 1) = some r') :
    ((diffDelayRows l prev).map (fun x => x.delay_days)).get? (i + 1)
      = some (some (toRd r'.payment_date - toRd r.payment_date)) := by
  induction l generalizing prev i with
  | nil => cases h
  | cons x xs ih =>
    cases i with
    | zero =>
      injection h with hx
      subst hx
      cases xs with
      | nil => cases h'
      | cons y ys =>
        injection h' with hy
        subst hy
        rfl
    | succ n =>
      exact ih n (some (toRd x.payment_date)) h h'

/-- Claim C2 as corrected: when the `scheduled_date` column exists,
every row's delay is `payment_date - scheduled_date` (undefined
exactly where the cell is missing); when the column is absent, the
delay is the gap to the immediately preceding row of the whole frame
— not of the same customer — with only the frame's first row getting
delay 0, and no delay left undefined in that branch. -/
theorem C2_delay_semantics (d : DataFrame) :
    (d.hasScheduledCol = true →
      (calculate_payment_delays d).rows.map (fun x => x.delay_days)
        = d.rows.map (fun r => r.scheduled_date.map (fun s => toRd r.payment_date - toRd s)))
    ∧ (d.hasScheduledCol = false →
      (∀ r rs, d.rows = r :: rs →
        ((calculate_payment_delays d).rows.map (fun x => x.delay_days)).head?
          = some (some 0))
      ∧ (∀ i r r', d.rows.get? i = some r → d.rows.get? (i + 1) = some r' →
          ((calculate_payment_delays d).rows.map (fun x => x.delay_days)).get? (i + 1)
            = some (some (toRd r'.payment_date - toRd r.payment_date)))
      ∧ (∀ x ∈ (calculate_payment_delays d).rows, x.delay_days.isSome = true)) := by
  constructor
  · intro h
    unfold calculate_payment_delays
    rw [if_pos h]
    simp [List.map_map]
  · intro h
    have hc : calculate_payment_delays d
        = { hasScheduledCol := d.hasScheduledCol
            hasAmountCol := d.hasAmountCol
            rows := diffDelayRows d.rows none } := by
      unfold calculate_payment_delays
      rw [if_neg (by simp [h])]
    refine ⟨?_, ?_, ?_⟩
    · intro r rs hrow
      rw [hc, hrow]
      rfl
    · intro i r r' hi hi'
      rw [hc]
      exact diffDelayRows_get_succ d.rows i r r' none hi hi'
    · intro x hx
      rw [hc] at hx
      exact diffDelayRows_all_some d.rows none x hx

/-- A frame with the `scheduled_date` column where one cell is
missing. -/
def c2SchedFrame : DataFrame :=
  { hasScheduledCol := true
    hasAmountCol := false
    rows := [⟨"A", ⟨2024, 1, 5⟩, some ⟨2024, 1, 2⟩, none⟩,
             ⟨"A", ⟨2024, 1, 20⟩, none, none⟩] }

/-- Witness for the corrected C2 on both branches: the per-row
subtraction (with the missing cell staying undefined) on a frame with
the column, and the cross-customer 10-day successive-difference delay
on the frame without it. -/
theorem C2_delay_semantics_witness :
    ((calculate_payment_delays c2SchedFrame).rows.map (fun x => x.delay_days)
      = c2SchedFrame.rows.map
          (fun r => r.scheduled_date.map (fun s => toRd r.payment_date - toRd s)))
    ∧ ((calculate_payment_delays c2Frame).rows.map (fun x => x.delay_days)).get? (0 + 1)
      = some (some (toRd ⟨2024, 1, 11⟩ - toRd ⟨2024, 1, 1⟩)) :=
  ⟨(C2_delay_semantics c2SchedFrame).1 rfl,
   ((C2_delay_semantics c2Frame).2 rfl).2.1 0
     ⟨"A", ⟨2024, 1, 1⟩, none, none⟩ ⟨"B", ⟨2024, 1, 11⟩, none, none⟩ rfl rfl⟩

/-! ### The corrected training-table semantics (claim C3) -/

/-- `flatMap` respects pointwise-equal functions. -/
theorem flatMapCongr {α β : Type} (l : List α) (f g : α → List β)
    (h : ∀ x ∈ l, f x = g x) : l.flatMap f = l.flatMap g := by
  induction l with
  | nil => rfl
  | cons x xs ih =>
    simp only [List.flatMap_cons, h x (by simp),
      ih (fun y hy => h y (by simp [hy]))]

/-- Claim C3 as corrected: training examples exist exactly for
customers with at least 3 records, but the engineered slices grow from
**2** records (up to `n - 1`); the example built from the first `i`
rows is paired with the gap between rows `i` and `i + 1` (the two rows
*after* the slice's last point would suggest) for `i < n - 1`, and the
final slice of `n - 1` rows with the gap between the last two rows;
`None` is returned exactly when no example was built.  Moreover no
loop iteration is skipped: every slice of at least two records yields
a feature row. -/
theorem C3_training_table_semantics (d : PFrame) (now : ℤ) :
    (prepare_training_data d now
      = (let pairs := (uniqueIds d.rows).flatMap (fun cid =>
          let customer_df := d.rows.filter (fun r => r.customer_id == cid)
          let n := customer_df.length
          if n < 3 then []
          else (List.range' 2 (n - 2)).filterMap (fun i =>
            (engineer_features { d with rows := customer_df.take i } cid now).map
              (fun f => (f,
                if i < n - 1 then nthRd customer_df (i + 1) - nthRd customer_df i
                else nthRd customer_df (n - 1) - nthRd customer_df (n - 2)))))
        if pairs.length = 0 then none else some pairs))
    ∧ (∀ cid i, 2 ≤ i →
        i ≤ (d.rows.filter (fun r => r.customer_id == cid)).length →
        ∃ f, engineer_features
            { d with rows := (d.rows.filter (fun r => r.customer_id == cid)).take i }
            cid now = some f) := by
  constructor
  · simp only [prepare_training_data]
    refine congrArg (fun pairs : List (Feature × ℤ) =>
      if pairs.length = 0 then none else some pairs) ?_
    apply flatMapCongr
    intro cid _
    by_cases hn : (d.rows.filter (fun r => r.customer_id == cid)).length < 3
    · simp only [hn, if_pos, if_true]
    · simp only [hn, if_neg, if_false]
      apply filterMapCongr
      intro i hi
      rw [List.mem_range'_1] at hi
      have h2i : 2 ≤ i := hi.1
      have hin : i < (d.rows.filter (fun r => r.customer_id == cid)).length := by
        omega
      cases hfe : engineer_features
          { d with rows := (d.rows.filter (fun r => r.customer_id == cid)).take i }
          cid now with
      | none => simp [hfe]
      | some f =>
        simp only [hfe, Option.map_some']
        by_cases hlast : i < (d.rows.filter (fun r => r.customer_id == cid)).length - 1
        · simp [hlast]
        · have hieq : i = (d.rows.filter (fun r => r.customer_id == cid)).length - 1 := by
            omega
          have hprev : i - 1 = (d.rows.filter (fun r => r.customer_id == cid)).length - 2 := by
            omega
          simp only [if_neg hlast]
          rw [hieq, Nat.sub_sub]
  · intro cid i h2 hin
    apply engineer_features_isSome
    have hsubset := List.take_subset i (d.rows.filter (fun r => r.customer_id == cid))
    have hsub : ∀ x ∈ (d.rows.filter (fun r => r.customer_id == cid)).take i,
        (x.customer_id == cid) = true :=
      fun x hx => (List.mem_filter.mp (hsubset hx)).2
    show ¬ (((d.rows.filter (fun r => r.customer_id == cid)).take i).filter
        (fun r => r.customer_id == cid)).length < 2
    rw [List.filter_eq_self.mpr hsub, List.length_take]
    omega

/-- Witness for the corrected C3: the two-record slice of the
three-record customer does yield a feature row, which is exactly the
slice the claim said could not occur. -/
theorem C3_training_table_witness :
    ∃ f, engineer_features
        { c3Frame with rows := (c3Frame.rows.filter (fun r => r.customer_id == "A")).take 2 }
        "A" 0 = some f :=
  (C3_training_table_semantics c3Frame 0).2 "A" 2 (by decide) (by decide)

end EMI
